import Mathlib

/-!
Verification of the coordinate resolver (`src/api.py`,
`extract_and_validate_coordinates`) and the spatial summarizer
(`src/map_app.py`, `haversine_distance` and
`calculate_centroid_and_max_span`) of the iNaturalist scripts.

The resolver works on loosely typed JSON-like records; we embed the
Python value universe as `PyVal` (numbers as exact rationals — the
concrete claims only involve small decimal literals), dictionaries as
association lists with first-match lookup, and Python `float(...)`
string coercion as an executable decimal parser.  A Python execution
that lets an exception escape the function is modelled as
`PyResult.raised`; every caught-exception path in the source
corresponds to an ordinary value here, exactly as the `try/except`
blocks dictate.

The summarizer is pure arithmetic over floats; it is embedded over the
real numbers (`ℝ`), with `haversine_distance` transcribed literally
from the source (`math.radians x = x * π / 180`).
-/

namespace INat

/-- Universe of Python/JSON values as they occur in observation records. -/
inductive PyVal where
  | vNone
  | vBool (b : Bool)
  | vNum (q : ℚ)
  | vStr (s : String)
  | vList (xs : List PyVal)
  | vDict (fields : List (String × PyVal))

/-- An observation record: a Python dict with string keys. -/
abbrev Obs := List (String × PyVal)

/-- Result of running a Python function: a value, or an uncaught exception. -/
inductive PyResult (α : Type) where
  | ok (val : α)
  | raised
deriving DecidableEq

/-- Python test `x is None`. -/
def isNone : PyVal → Bool
  | .vNone => true
  | _ => false

/-- Whether a Python value is a dict (supports `.get`). -/
def isDict : PyVal → Bool
  | .vDict _ => true
  | _ => false

/-- Python truthiness. -/
def truthy : PyVal → Bool
  | .vNone => false
  | .vBool b => b
  | .vNum q => decide (q ≠ 0)
  | .vStr s => !s.isEmpty
  | .vList xs => !xs.isEmpty
  | .vDict d => !d.isEmpty

/-- Python `d.get(k)` with default `None`: first matching key wins. -/
def dictGet (d : List (String × PyVal)) (k : String) : PyVal :=
  match d.find? (fun p => p.1 == k) with
  | some p => p.2
  | none => .vNone

/-- Python `obs.get(k)` on the observation record. -/
def pyGet (obs : Obs) (k : String) : PyVal :=
  dictGet obs k

/-- Decimal digit string to a natural number. -/
def digitsToNat (cs : List Char) : ℕ :=
  cs.foldl (fun n c => 10 * n + (c.toNat - 48)) 0

/-- A nonempty all-digit character list, as a natural number. -/
def parseNatDigits (cs : List Char) : Option ℕ :=
  if !cs.isEmpty && cs.all Char.isDigit then some (digitsToNat cs) else none

/-- Consume an optional leading sign; `true` means negative. -/
def parseSign : List Char → Bool × List Char
  | '+' :: rest => (false, rest)
  | '-' :: rest => (true, rest)
  | cs => (false, cs)

/-- Mantissa of a Python float literal: `digits`, `digits.digits`,
`digits.` or `.digits`.  Returns the combined digit value together
with the number of fractional digits (the represented number is
`value / 10 ^ scale`). -/
def parseMantissa (cs : List Char) : Option (ℕ × ℕ) :=
  let ip := cs.takeWhile (fun c => c != '.')
  match cs.dropWhile (fun c => c != '.') with
  | [] =>
    if !ip.isEmpty && ip.all Char.isDigit then some (digitsToNat ip, 0) else none
  | _ :: frac =>
    if (!ip.isEmpty || !frac.isEmpty) && ip.all Char.isDigit && frac.all Char.isDigit then
      some (digitsToNat (ip ++ frac), frac.length)
    else none

/-- Python `float(...)` applied to a character sequence (finite decimals with
optional exponent; the special spellings `inf`/`nan` are outside the
modelled value range and treated as coercion failures).  The result
`± mantissa * 10 ^ exponent` is assembled as a single integer quotient. -/
def parseFloatChars (cs : List Char) : Option ℚ :=
  let sg := parseSign cs
  let mant := sg.2.takeWhile (fun c => c != 'e' && c != 'E')
  let rest := sg.2.dropWhile (fun c => c != 'e' && c != 'E')
  let ex : Option ℤ :=
    match rest with
    | [] => some 0
    | _ :: es =>
      let esg := parseSign es
      match parseNatDigits esg.2 with
      | some n => some (if esg.1 then -(n : ℤ) else (n : ℤ))
      | none => none
  match parseMantissa mant, ex with
  | some mv, some e =>
    let num : ℤ := if sg.1 then -(mv.1 : ℤ) else (mv.1 : ℤ)
    if 0 ≤ e then some (Rat.divInt (num * (10 : ℤ) ^ e.toNat) ((10 : ℤ) ^ mv.2))
    else some (Rat.divInt num ((10 : ℤ) ^ (mv.2 + (-e).toNat)))
  | _, _ => none

/-- Is the character stripped by Python `str.strip()` / `float(str)`? -/
def isStripped (c : Char) : Bool := c.isWhitespace

/-- Python `str.strip()` on a character list. -/
def stripChars (cs : List Char) : List Char :=
  ((cs.dropWhile isStripped).reverse.dropWhile isStripped).reverse

/-- Python `str.split(",")`: split on every comma, keeping empty parts. -/
def splitOnComma (cs : List Char) : List (List Char) :=
  match cs with
  | [] => [[]]
  | c :: rest =>
    let r := splitOnComma rest
    if c = ',' then [] :: r
    else
      match r with
      | h :: t => (c :: h) :: t
      | [] => [[c]]

/-- Python `float(s)` for a string value. -/
def parseFloat (s : String) : Option ℚ :=
  parseFloatChars (stripChars s.data)

/-- Python `float(x)` for an arbitrary value: `ValueError`/`TypeError`
(which the source always catches next to this call) are `none`. -/
def pyFloat : PyVal → Option ℚ
  | .vNum q => some q
  | .vBool b => some (if b then 1 else 0)
  | .vStr s => parseFloat s
  | _ => none

/-- Method 1 of `extract_and_validate_coordinates` (src/api.py lines
13–19): direct `latitude`/`longitude` fields.  The two `float` calls
are sequential inside one `try`: if the first succeeds and the second
raises, the caught exception leaves a partial state. -/
def method1 (obs : Obs) : Option ℚ × Option ℚ :=
  if isNone (pyGet obs "latitude") || isNone (pyGet obs "longitude") then (none, none)
  else
    match pyFloat (pyGet obs "latitude") with
    | none => (none, none)
    | some a =>
      match pyFloat (pyGet obs "longitude") with
      | none => (some a, none)
      | some b => (some a, some b)

/-- Method 2 (src/api.py lines 21–29): parse the `location` string,
run only when `latitude` is still `None`. -/
def method2 (obs : Obs) (st : Option ℚ × Option ℚ) : Option ℚ × Option ℚ :=
  if st.1 = none ∧ truthy (pyGet obs "location") = true then
    match pyGet obs "location" with
    | .vStr s =>
      match splitOnComma (stripChars s.data) with
      | [p0, p1] =>
        match parseFloatChars (stripChars p0) with
        | none => st
        | some a =>
          match parseFloatChars (stripChars p1) with
          | none => (some a, st.2)
          | some b => (some a, some b)
      | _ => st
    | _ => st
  else st

/-- Body of the `try` block of method 3: index a sequence of length ≥ 2
and coerce entry 0 to the longitude, entry 1 to the latitude.  For any
non-indexable value the raised `TypeError`/`KeyError` is caught by the
surrounding `except`, leaving the state unchanged. -/
def method3_try (c : PyVal) (st : Option ℚ × Option ℚ) : Option ℚ × Option ℚ :=
  match c with
  | .vList (x0 :: x1 :: _) =>
    match pyFloat x0 with
    | none => st
    | some b =>
      match pyFloat x1 with
      | none => (st.1, some b)
      | some a => (some a, some b)
  | .vStr s =>
    match s.data with
    | c0 :: c1 :: _ =>
      match parseFloatChars (stripChars [c0]) with
      | none => st
      | some b =>
        match parseFloatChars (stripChars [c1]) with
        | none => (st.1, some b)
        | some a => (some a, some b)
    | _ => st
  | _ => st

/-- Method 3 (src/api.py lines 31–40): `geojson.coordinates`.  The
condition `obs.get("geojson", {}).get("coordinates")` sits outside the
`try` block, so `.get` on a truthy non-dict raises an uncaught
`AttributeError`. -/
def method3 (obs : Obs) (st : Option ℚ × Option ℚ) : PyResult (Option ℚ × Option ℚ) :=
  if st.1 = none then
    match pyGet obs "geojson" with
    | .vDict d =>
      if truthy (.vDict d) = true then
        if truthy (dictGet d "coordinates") = true then
          .ok (method3_try (dictGet d "coordinates") st)
        else .ok st
      else .ok st
    | g => if truthy g = true then .raised else .ok st
  else .ok st

/-- Validation (src/api.py lines 42–53): applied only when both
components are present; two sequential rejection gates. -/
def validate_coords (st : Option ℚ × Option ℚ) : Option ℚ × Option ℚ :=
  match st with
  | (some lat, some lon) =>
    if ¬(-90 ≤ lat ∧ lat ≤ 90) ∨ ¬(-180 ≤ lon ∧ lon ≤ 180) then (none, none)
    else if lat = 0 ∧ lon = 0 then (none, none)
    else (some lat, some lon)
  | other => other

/-- The pre-validation state after the three resolution methods. -/
def resolve_state (obs : Obs) : PyResult (Option ℚ × Option ℚ) :=
  method3 obs (method2 obs (method1 obs))

/-- The resolver `extract_and_validate_coordinates` (src/api.py lines 5–53). -/
def extract_and_validate_coordinates (obs : Obs) : PyResult (Option ℚ × Option ℚ) :=
  match resolve_state obs with
  | .raised => .raised
  | .ok st => .ok (validate_coords st)

/-- Resolution restricted to methods 2 and 3 (starting from an empty
pair), i.e. what the resolver computes when method 1 contributes
nothing. -/
def resolveFromLocation (obs : Obs) : PyResult (Option ℚ × Option ℚ) :=
  match method3 obs (method2 obs (none, none)) with
  | .raised => .raised
  | .ok st => .ok (validate_coords st)

/-! ## Spatial summarizer (src/map_app.py) -/

/-- One coordinate tuple `(lat, lon, obs_id, image_url)` as produced by
`load_species_coordinates`. -/
structure ObsPoint where
  lat : ℝ
  lon : ℝ
  obsId : ℕ
  imageUrl : String

/-- Function `haversine_distance` (src/map_app.py lines 8–23): degrees are
converted to radians (`math.radians x = x * π / 180`), then
`a = sin²(Δlat/2) + cos lat1 · cos lat2 · sin²(Δlon/2)`,
`c = 2 · asin(√a)`, and the result is `6371 · c` kilometres. -/
noncomputable def haversine_distance (lat1 lon1 lat2 lon2 : ℝ) : ℝ :=
  let rlat1 := lat1 * Real.pi / 180
  let rlon1 := lon1 * Real.pi / 180
  let rlat2 := lat2 * Real.pi / 180
  let rlon2 := lon2 * Real.pi / 180
  let dlat := rlat2 - rlat1
  let dlon := rlon2 - rlon1
  let a := Real.sin (dlat / 2) ^ 2 + Real.cos rlat1 * Real.cos rlat2 * Real.sin (dlon / 2) ^ 2
  let c := 2 * Real.arcsin (Real.sqrt a)
  6371 * c

/-- The triple `(lat, lon, obs_id)` stored for a furthest point. -/
def pointProj (p : ObsPoint) : ℝ × ℝ × ℕ := (p.lat, p.lon, p.obsId)

/-- Distance of one candidate pair in the double loop. -/
noncomputable def pdist (pq : ObsPoint × ObsPoint) : ℝ :=
  haversine_distance pq.1.lat pq.1.lon pq.2.lat pq.2.lon

/-- Loop body of the furthest-pair search (src/map_app.py lines 75–81):
update the running triple exactly when the new distance is strictly
larger. -/
noncomputable def spanStep (st : ℝ × Option (ℝ × ℝ × ℕ) × Option (ℝ × ℝ × ℕ))
    (pq : ObsPoint × ObsPoint) : ℝ × Option (ℝ × ℝ × ℕ) × Option (ℝ × ℝ × ℕ) :=
  if pdist pq > st.1 then (pdist pq, some (pointProj pq.1), some (pointProj pq.2)) else st

/-- The double loop as a left fold over the pair list. -/
noncomputable def spanScan (l : List (ObsPoint × ObsPoint))
    (st : ℝ × Option (ℝ × ℝ × ℕ) × Option (ℝ × ℝ × ℕ)) :
    ℝ × Option (ℝ × ℝ × ℕ) × Option (ℝ × ℝ × ℕ) :=
  l.foldl spanStep st

/-- The pairs visited by `for i, p1 in enumerate(coords): for p2 in
coords[i+1:]`, in visiting order. -/
def pairsAfter {α : Type} : List α → List (α × α)
  | [] => []
  | x :: rest => (rest.map (fun y => (x, y))) ++ pairsAfter rest

/-- Function `calculate_centroid_and_max_span` (src/map_app.py lines 56–83). -/
noncomputable def calculate_centroid_and_max_span (coords : List ObsPoint) :
    Option (ℝ × ℝ) × ℝ × Option (ℝ × ℝ × ℕ) × Option (ℝ × ℝ × ℕ) :=
  match coords with
  | [] => (none, 0, none, none)
  | c :: rest =>
    let lats := (c :: rest).map ObsPoint.lat
    let lons := (c :: rest).map ObsPoint.lon
    (some (lats.sum / (lats.length : ℝ), lons.sum / (lons.length : ℝ)),
      spanScan (pairsAfter (c :: rest)) (0, none, none))

/-! ## Resolver lemmas -/

/-- Validation of a complete pair as one decision. -/
theorem validate_pair_eq (lat lon : ℚ) :
    validate_coords (some lat, some lon) =
      if (¬(-90 ≤ lat ∧ lat ≤ 90) ∨ ¬(-180 ≤ lon ∧ lon ≤ 180)) ∨ (lat = 0 ∧ lon = 0)
      then (none, none) else (some lat, some lon) := by
  simp only [validate_coords]
  split_ifs <;> first | rfl | tauto

/-- A complete pair surviving validation satisfies all validation rules. -/
theorem validate_ok (st : Option ℚ × Option ℚ) (lat lon : ℚ)
    (h : validate_coords st = (some lat, some lon)) :
    (-90 ≤ lat ∧ lat ≤ 90) ∧ (-180 ≤ lon ∧ lon ≤ 180) ∧ ¬(lat = 0 ∧ lon = 0) := by
  obtain ⟨a, b⟩ := st
  cases a <;> cases b <;> simp only [validate_coords] at h
  · exact absurd h (by simp)
  · exact absurd h (by simp)
  · exact absurd h (by simp)
  · rename_i a b
    split_ifs at h with hc1 hc2
    · exact absurd h (by simp)
    · exact absurd h (by simp)
    · obtain ⟨ha, hb⟩ := Prod.mk.injEq .. ▸ h
      obtain rfl : a = lat := Option.some_injective _ ha
      obtain rfl : b = lon := Option.some_injective _ hb
      push_neg at hc1
      exact ⟨hc1.1, hc1.2, hc2⟩

/-- If the resolution state is a normal value, the resolver output is
that value run through validation. -/
theorem extract_eq_ok (obs : Obs) (st : Option ℚ × Option ℚ)
    (h : resolve_state obs = .ok st) :
    extract_and_validate_coordinates obs = .ok (validate_coords st) := by
  unfold extract_and_validate_coordinates
  rw [h]

/-- Method 3 returns normally whenever a truthy `geojson` field is a
dict. -/
theorem method3_not_raised (obs : Obs) (st : Option ℚ × Option ℚ)
    (h : truthy (pyGet obs "geojson") = true → isDict (pyGet obs "geojson") = true) :
    ∃ st2, method3 obs st = .ok st2 := by
  unfold method3
  by_cases h1 : st.1 = none
  · rw [if_pos h1]
    cases hg : pyGet obs "geojson" with
    | vDict d =>
      dsimp only
      split_ifs <;> exact ⟨_, rfl⟩
    | vNone =>
      dsimp only
      rw [if_neg (by simp [truthy])]
      exact ⟨_, rfl⟩
    | vBool b =>
      rw [hg] at h
      dsimp only
      by_cases hq : truthy (PyVal.vBool b) = true
      · exact absurd (h hq) (by simp [isDict])
      · rw [if_neg hq]; exact ⟨_, rfl⟩
    | vNum q =>
      rw [hg] at h
      dsimp only
      by_cases hq : truthy (PyVal.vNum q) = true
      · exact absurd (h hq) (by simp [isDict])
      · rw [if_neg hq]; exact ⟨_, rfl⟩
    | vStr s =>
      rw [hg] at h
      dsimp only
      by_cases hq : truthy (PyVal.vStr s) = true
      · exact absurd (h hq) (by simp [isDict])
      · rw [if_neg hq]; exact ⟨_, rfl⟩
    | vList xs =>
      rw [hg] at h
      dsimp only
      by_cases hq : truthy (PyVal.vList xs) = true
      · exact absurd (h hq) (by simp [isDict])
      · rw [if_neg hq]; exact ⟨_, rfl⟩
  · rw [if_neg h1]; exact ⟨_, rfl⟩

/-! ## Claims about the coordinate resolver -/

/-- C1, counterexample: on a record whose `latitude` field coerces but
whose `longitude` field does not, the resolver returns a pair with
exactly one component present — contradicting the claim that it only
ever returns a fully validated pair or a fully absent pair. -/
theorem claim_C1_counterexample :
    extract_and_validate_coordinates
        [("latitude", PyVal.vStr "5.0"), ("longitude", PyVal.vStr "abc")]
      = .ok (some 5, none) := by decide

/-- C1, amended: whenever the resolver returns normally with BOTH
components present, the pair passed validation (latitude in [-90, 90],
longitude in [-180, 180], and not exactly (0, 0)); partial pairs with
exactly one component present can, however, escape unvalidated. -/
theorem claim_C1 (obs : Obs) (lat lon : ℚ)
    (h : extract_and_validate_coordinates obs = .ok (some lat, some lon)) :
    (-90 ≤ lat ∧ lat ≤ 90) ∧ (-180 ≤ lon ∧ lon ≤ 180) ∧ ¬(lat = 0 ∧ lon = 0) := by
  cases hres : resolve_state obs with
  | raised =>
    unfold extract_and_validate_coordinates at h
    rw [hres] at h
    exact absurd h (by simp)
  | ok st =>
    rw [extract_eq_ok obs st hres] at h
    exact validate_ok st lat lon (by injection h)

/-- C1, witness at a fully valid direct record. -/
theorem claim_C1_witness :
    extract_and_validate_coordinates
        [("latitude", PyVal.vNum 45), ("longitude", PyVal.vNum (-93))]
      = .ok (some 45, some (-93))
    ∧ ((-90 ≤ (45 : ℚ) ∧ (45 : ℚ) ≤ 90) ∧ (-180 ≤ (-93 : ℚ) ∧ (-93 : ℚ) ≤ 180)
        ∧ ¬((45 : ℚ) = 0 ∧ (-93 : ℚ) = 0)) :=
  ⟨by decide,
    claim_C1 [("latitude", PyVal.vNum 45), ("longitude", PyVal.vNum (-93))] 45 (-93) (by decide)⟩

/-- C2, counterexample: a record whose `geojson` field is a truthy
non-record makes the membership test `obs.get("geojson", {}).get(...)`
raise an uncaught `AttributeError` — the resolver does not terminate
normally on every malformed record. -/
theorem claim_C2_counterexample :
    extract_and_validate_coordinates [("geojson", PyVal.vStr "x")] = .raised := by decide

/-- C2, amended: the resolver terminates normally on every record whose
`geojson` field, when present and truthy, is a key/value record; all
other malformed values degrade to the next method or to "no
coordinates". -/
theorem claim_C2 (obs : Obs)
    (h : truthy (pyGet obs "geojson") = true → isDict (pyGet obs "geojson") = true) :
    ∃ r, extract_and_validate_coordinates obs = .ok r := by
  obtain ⟨st2, h2⟩ := method3_not_raised obs (method2 obs (method1 obs)) h
  refine ⟨validate_coords st2, ?_⟩
  unfold extract_and_validate_coordinates resolve_state
  rw [h2]

/-- C2, witness at a record with no geojson field. -/
theorem claim_C2_witness :
    (truthy (pyGet [("latitude", PyVal.vNum 1), ("longitude", PyVal.vNum 2)] "geojson") = true →
      isDict (pyGet [("latitude", PyVal.vNum 1), ("longitude", PyVal.vNum 2)] "geojson") = true)
    ∧ ∃ r, extract_and_validate_coordinates
        [("latitude", PyVal.vNum 1), ("longitude", PyVal.vNum 2)] = .ok r :=
  ⟨by decide, claim_C2 [("latitude", PyVal.vNum 1), ("longitude", PyVal.vNum 2)] (by decide)⟩

/-- C4, counterexample: on a record whose `longitude` field fails float
coercion while `latitude` coerces, the resolver does NOT fall through to
the perfectly parseable `location` string; it returns the partial direct
pair instead. -/
theorem claim_C4_counterexample :
    extract_and_validate_coordinates
        [("latitude", PyVal.vNum 5), ("longitude", PyVal.vStr "abc"),
         ("location", PyVal.vStr "1.0,2.0")]
      = .ok (some 5, none)
    ∧ extract_and_validate_coordinates
        [("latitude", PyVal.vNum 5), ("longitude", PyVal.vStr "abc"),
         ("location", PyVal.vStr "1.0,2.0")]
      ≠ .ok (some 1, some 2) :=
  ⟨by decide, by decide⟩

/-- C4, amended: later methods run exactly when the latitude slot is
still empty.  If the `latitude` field fails coercion the resolver
behaves as if only methods 2 and 3 existed; but if `latitude` coerces
and `longitude` fails, the later methods are skipped and the partial
pair is returned as is. -/
theorem claim_C4 (obs : Obs) :
    (pyFloat (pyGet obs "latitude") = none →
      extract_and_validate_coordinates obs = resolveFromLocation obs)
    ∧ (∀ a : ℚ, isNone (pyGet obs "latitude") = false →
        isNone (pyGet obs "longitude") = false →
        pyFloat (pyGet obs "latitude") = some a →
        pyFloat (pyGet obs "longitude") = none →
        extract_and_validate_coordinates obs = .ok (some a, none)) := by
  constructor
  · intro hf
    have hm1 : method1 obs = (none, none) := by
      unfold method1
      split_ifs with hguard
      · rfl
      · rw [hf]
    unfold extract_and_validate_coordinates resolve_state resolveFromLocation
    rw [hm1]
  · intro a h1 h2 h3 h4
    have hm1 : method1 obs = (some a, none) := by
      unfold method1
      rw [h1, h2, h3, h4]
      rfl
    have hm2 : method2 obs (some a, none) = (some a, none) := by
      unfold method2
      rw [if_neg (by simp)]
    have hm3 : method3 obs (some a, none) = .ok (some a, none) := by
      unfold method3
      rw [if_neg (by simp)]
    unfold extract_and_validate_coordinates resolve_state
    rw [hm1, hm2, hm3]
    rfl

/-- C4, witness: a record with an uncoercible latitude resolves exactly
as methods 2–3 alone would. -/
theorem claim_C4_witness :
    pyFloat (pyGet [("latitude", PyVal.vStr "abc"), ("location", PyVal.vStr "7.0, 8.0")]
        "latitude") = none
    ∧ extract_and_validate_coordinates
        [("latitude", PyVal.vStr "abc"), ("location", PyVal.vStr "7.0, 8.0")]
      = resolveFromLocation [("latitude", PyVal.vStr "abc"), ("location", PyVal.vStr "7.0, 8.0")] :=
  ⟨by decide,
    (claim_C4 [("latitude", PyVal.vStr "abc"), ("location", PyVal.vStr "7.0, 8.0")]).1 (by decide)⟩

/-- C6: once some method produced a complete candidate pair, the
resolver reports "no coordinates" exactly when validation rejects it
(out-of-range latitude or longitude, or the exact (0, 0) sentinel), and
otherwise returns the pair; in particular latitude 91 / longitude 0 and
the exact (0, 0) record both yield "no coordinates". -/
theorem claim_C6 :
    (∀ (obs : Obs) (lat lon : ℚ), resolve_state obs = .ok (some lat, some lon) →
      ((extract_and_validate_coordinates obs = .ok (none, none)
          ↔ ((¬(-90 ≤ lat ∧ lat ≤ 90) ∨ ¬(-180 ≤ lon ∧ lon ≤ 180)) ∨ (lat = 0 ∧ lon = 0)))
        ∧ (¬((¬(-90 ≤ lat ∧ lat ≤ 90) ∨ ¬(-180 ≤ lon ∧ lon ≤ 180)) ∨ (lat = 0 ∧ lon = 0)) →
            extract_and_validate_coordinates obs = .ok (some lat, some lon))))
    ∧ extract_and_validate_coordinates [("latitude", PyVal.vNum 91), ("longitude", PyVal.vNum 0)]
        = .ok (none, none)
    ∧ extract_and_validate_coordinates [("latitude", PyVal.vNum 0), ("longitude", PyVal.vNum 0)]
        = .ok (none, none) := by
  refine ⟨?_, by decide, by decide⟩
  intro obs lat lon h
  rw [extract_eq_ok obs _ h, validate_pair_eq]
  by_cases hr : (¬(-90 ≤ lat ∧ lat ≤ 90) ∨ ¬(-180 ≤ lon ∧ lon ≤ 180)) ∨ (lat = 0 ∧ lon = 0)
  · rw [if_pos hr]
    exact ⟨iff_of_true rfl hr, fun hn => absurd hr hn⟩
  · rw [if_neg hr]
    refine ⟨⟨fun he => ?_, fun hx => absurd hx hr⟩, fun _ => rfl⟩
    simp at he
/-- C6, witness at the out-of-range record (latitude 91). -/
theorem claim_C6_witness :
    resolve_state [("latitude", PyVal.vNum 91), ("longitude", PyVal.vNum 0)]
      = .ok (some 91, some 0)
    ∧ ((extract_and_validate_coordinates
          [("latitude", PyVal.vNum 91), ("longitude", PyVal.vNum 0)] = .ok (none, none)
        ↔ ((¬(-90 ≤ (91 : ℚ) ∧ (91 : ℚ) ≤ 90) ∨ ¬(-180 ≤ (0 : ℚ) ∧ (0 : ℚ) ≤ 180))
            ∨ ((91 : ℚ) = 0 ∧ (0 : ℚ) = 0)))
      ∧ (¬((¬(-90 ≤ (91 : ℚ) ∧ (91 : ℚ) ≤ 90) ∨ ¬(-180 ≤ (0 : ℚ) ∧ (0 : ℚ) ≤ 180))
            ∨ ((91 : ℚ) = 0 ∧ (0 : ℚ) = 0)) →
          extract_and_validate_coordinates
            [("latitude", PyVal.vNum 91), ("longitude", PyVal.vNum 0)]
            = .ok (some 91, some 0))) :=
  ⟨by decide, claim_C6.1 [("latitude", PyVal.vNum 91), ("longitude", PyVal.vNum 0)] 91 0 (by decide)⟩

/-- C7: in the geojson method, entry 0 of `coordinates` becomes the
longitude and entry 1 the latitude (reversed axis order); in particular
a record with only `geojson.coordinates = [10.0, 20.0]` resolves to
latitude 20, longitude 10. -/
theorem claim_C7 :
    (∀ (obs : Obs) (st : Option ℚ × Option ℚ) (d : List (String × PyVal)) (x0 x1 : PyVal)
        (rest : List PyVal) (a b : ℚ),
      st.1 = none →
      pyGet obs "geojson" = .vDict d →
      dictGet d "coordinates" = .vList (x0 :: x1 :: rest) →
      pyFloat x0 = some b → pyFloat x1 = some a →
      method3 obs st = .ok (some a, some b))
    ∧ extract_and_validate_coordinates
        [("geojson", PyVal.vDict [("coordinates", PyVal.vList [PyVal.vNum 10, PyVal.vNum 20])])]
      = .ok (some 20, some 10) := by
  refine ⟨?_, by decide⟩
  intro obs st d x0 x1 rest a b hst hg hc hx0 hx1
  have hd : d.isEmpty = false := by
    cases d with
    | nil => simp [dictGet] at hc
    | cons p t => rfl
  simp [method3, hst, hg, truthy, hd, hc, method3_try, hx0, hx1]

/-- C7, witness at the `[10.0, 20.0]` record. -/
theorem claim_C7_witness :
    pyGet [("geojson", PyVal.vDict [("coordinates", PyVal.vList [PyVal.vNum 10, PyVal.vNum 20])])]
        "geojson"
      = PyVal.vDict [("coordinates", PyVal.vList [PyVal.vNum 10, PyVal.vNum 20])]
    ∧ method3
        [("geojson", PyVal.vDict [("coordinates", PyVal.vList [PyVal.vNum 10, PyVal.vNum 20])])]
        (none, none)
      = .ok (some 20, some 10) :=
  ⟨rfl,
    claim_C7.1
      [("geojson", PyVal.vDict [("coordinates", PyVal.vList [PyVal.vNum 10, PyVal.vNum 20])])]
      (none, none) [("coordinates", PyVal.vList [PyVal.vNum 10, PyVal.vNum 20])]
      (PyVal.vNum 10) (PyVal.vNum 20) [] 20 10 rfl rfl rfl rfl rfl⟩

/-- C9: valid in-range non-sentinel coordinates exposed as the direct
fields round-trip through the resolver unchanged. -/
theorem claim_C9 (lat lon : ℚ) (h1 : -90 ≤ lat) (h2 : lat ≤ 90) (h3 : -180 ≤ lon)
    (h4 : lon ≤ 180) (h5 : ¬(lat = 0 ∧ lon = 0)) :
    extract_and_validate_coordinates
        [("latitude", PyVal.vNum lat), ("longitude", PyVal.vNum lon)]
      = .ok (some lat, some lon) := by
  have hpre : resolve_state [("latitude", PyVal.vNum lat), ("longitude", PyVal.vNum lon)]
      = .ok (some lat, some lon) := rfl
  rw [extract_eq_ok _ _ hpre, validate_pair_eq, if_neg (by tauto)]

/-- C9, witness at (10, 20). -/
theorem claim_C9_witness :
    ((-90 ≤ (10 : ℚ)) ∧ ((10 : ℚ) ≤ 90) ∧ (-180 ≤ (20 : ℚ)) ∧ ((20 : ℚ) ≤ 180)
      ∧ ¬((10 : ℚ) = 0 ∧ (20 : ℚ) = 0))
    ∧ extract_and_validate_coordinates
        [("latitude", PyVal.vNum 10), ("longitude", PyVal.vNum 20)]
      = .ok (some 10, some 20) :=
  ⟨⟨by decide, by decide, by decide, by decide, by decide⟩,
    claim_C9 10 20 (by decide) (by decide) (by decide) (by decide) (by decide)⟩

/-! ## Summarizer lemmas -/

/-- Closed form of `haversine_distance`. -/
theorem haversine_eq (lat1 lon1 lat2 lon2 : ℝ) :
    haversine_distance lat1 lon1 lat2 lon2 =
      6371 * (2 * Real.arcsin (Real.sqrt
        (Real.sin ((lat2 * Real.pi / 180 - lat1 * Real.pi / 180) / 2) ^ 2
          + Real.cos (lat1 * Real.pi / 180) * Real.cos (lat2 * Real.pi / 180)
            * Real.sin ((lon2 * Real.pi / 180 - lon1 * Real.pi / 180) / 2) ^ 2))) := rfl

/-- The haversine distance from a point to itself is zero. -/
theorem haversine_self (lat lon : ℝ) : haversine_distance lat lon lat lon = 0 := by
  rw [haversine_eq]
  simp

/-- The haversine formula never returns a negative distance. -/
theorem haversine_nonneg (lat1 lon1 lat2 lon2 : ℝ) :
    0 ≤ haversine_distance lat1 lon1 lat2 lon2 := by
  rw [haversine_eq]
  have h := Real.arcsin_nonneg.mpr (Real.sqrt_nonneg
    (Real.sin ((lat2 * Real.pi / 180 - lat1 * Real.pi / 180) / 2) ^ 2
      + Real.cos (lat1 * Real.pi / 180) * Real.cos (lat2 * Real.pi / 180)
        * Real.sin ((lon2 * Real.pi / 180 - lon1 * Real.pi / 180) / 2) ^ 2))
  linarith

/-- Pair distances are nonnegative. -/
theorem pdist_nonneg (pq : ObsPoint × ObsPoint) : 0 ≤ pdist pq :=
  haversine_nonneg pq.1.lat pq.1.lon pq.2.lat pq.2.lon

/-- Folding the empty pair list leaves the state unchanged. -/
theorem spanScan_nil (st : ℝ × Option (ℝ × ℝ × ℕ) × Option (ℝ × ℝ × ℕ)) :
    spanScan [] st = st := rfl

/-- One step of the fold. -/
theorem spanScan_cons (x : ObsPoint × ObsPoint) (l : List (ObsPoint × ObsPoint))
    (st : ℝ × Option (ℝ × ℝ × ℕ) × Option (ℝ × ℝ × ℕ)) :
    spanScan (x :: l) st = spanScan l (spanStep st x) := rfl

/-- Complete case analysis of the strict-improvement scan: either no
pair beats the incoming bound and the state is returned unchanged, or
the result is determined by the FIRST pair attaining the overall
maximum (everything before it is strictly smaller, everything after it
no larger). -/
theorem spanScan_cases (l : List (ObsPoint × ObsPoint)) (m : ℝ)
    (b : Option (ℝ × ℝ × ℕ) × Option (ℝ × ℝ × ℕ)) :
    ((∀ q ∈ l, pdist q ≤ m) ∧ spanScan l (m, b) = (m, b))
    ∨ (∃ l1 pq l2, l = l1 ++ pq :: l2
        ∧ spanScan l (m, b) = (pdist pq, some (pointProj pq.1), some (pointProj pq.2))
        ∧ m < pdist pq ∧ (∀ q ∈ l1, pdist q < pdist pq) ∧ (∀ q ∈ l2, pdist q ≤ pdist pq)) := by
  induction l generalizing m b with
  | nil => exact Or.inl ⟨by simp, rfl⟩
  | cons x l ih =>
    have hstep : spanScan (x :: l) (m, b) = spanScan l (spanStep (m, b) x) := rfl
    by_cases hx : pdist x > m
    · have hs : spanStep (m, b) x = (pdist x, some (pointProj x.1), some (pointProj x.2)) := by
        unfold spanStep
        rw [if_pos hx]
      rw [hstep, hs]
      rcases ih (pdist x) (some (pointProj x.1), some (pointProj x.2)) with
        ⟨hall, heq⟩ | ⟨l1, pq, l2, hsplit, heq, hm, hl1, hl2⟩
      · exact Or.inr ⟨[], x, l, by simp, heq, hx, by simp, hall⟩
      · refine Or.inr ⟨x :: l1, pq, l2, by rw [hsplit]; rfl, heq, lt_trans hx hm, ?_, hl2⟩
        intro q hq
        rcases List.mem_cons.mp hq with rfl | hq
        · exact hm
        · exact hl1 q hq
    · have hs : spanStep (m, b) x = (m, b) := by
        unfold spanStep
        rw [if_neg hx]
      rw [hstep, hs]
      rcases ih m b with ⟨hall, heq⟩ | ⟨l1, pq, l2, hsplit, heq, hm, hl1, hl2⟩
      · refine Or.inl ⟨?_, heq⟩
        intro q hq
        rcases List.mem_cons.mp hq with rfl | hq
        · exact le_of_not_lt hx
        · exact hall q hq
      · refine Or.inr ⟨x :: l1, pq, l2, by rw [hsplit]; rfl, heq, hm, ?_, hl2⟩
        intro q hq
        rcases List.mem_cons.mp hq with rfl | hq
        · exact lt_of_le_of_lt (le_of_not_lt hx) hm
        · exact hl1 q hq

/-- A first-maximum split bounds every element of the list. -/
theorem split_max (l1 l2 : List (ObsPoint × ObsPoint)) (pq : ObsPoint × ObsPoint)
    (hl1 : ∀ q ∈ l1, pdist q < pdist pq) (hl2 : ∀ q ∈ l2, pdist q ≤ pdist pq) :
    ∀ q ∈ l1 ++ pq :: l2, pdist q ≤ pdist pq := by
  intro q hq
  rcases List.mem_append.mp hq with hq | hq
  · exact le_of_lt (hl1 q hq)
  · rcases List.mem_cons.mp hq with rfl | hq
    · exact le_refl _
    · exact hl2 q hq

/-- Unfolding of `calculate_centroid_and_max_span` on a nonempty list. -/
theorem calc_cons (c : ObsPoint) (rest : List ObsPoint) :
    calculate_centroid_and_max_span (c :: rest) =
      (some (((c :: rest).map ObsPoint.lat).sum / (((c :: rest).map ObsPoint.lat).length : ℝ),
             ((c :: rest).map ObsPoint.lon).sum / (((c :: rest).map ObsPoint.lon).length : ℝ)),
        spanScan (pairsAfter (c :: rest)) (0, none, none)) := rfl

/-- The double loop visits each unordered pair of distinct positions
exactly once: `n (n - 1) / 2` pairs in total. -/
theorem pairsAfter_length {α : Type} (l : List α) :
    (pairsAfter l).length = Nat.choose l.length 2 := by
  induction l with
  | nil => rfl
  | cons x rest ih =>
    simp [pairsAfter, ih, Nat.choose_succ_succ, Nat.choose_one_right]

/-! ## Claims about the spatial summarizer -/

/-- C8: the summarizer returns the empty result tuple on an empty point
set, and on a single point it returns that point as centroid, zero max
distance, and no boundary pair. -/
theorem claim_C8 :
    calculate_centroid_and_max_span [] = (none, 0, none, none)
    ∧ ∀ p : ObsPoint,
        calculate_centroid_and_max_span [p] = (some (p.lat, p.lon), 0, none, none) := by
  refine ⟨rfl, fun p => ?_⟩
  rw [calc_cons]
  simp [pairsAfter, spanScan]

/-- C10: the haversine distance is symmetric in its two endpoints, and
the distance from a point to itself is zero, so the maximum-span search
does not depend on the orientation of a pair. -/
theorem claim_C10 :
    (∀ lat1 lon1 lat2 lon2 : ℝ,
      haversine_distance lat1 lon1 lat2 lon2 = haversine_distance lat2 lon2 lat1 lon1)
    ∧ (∀ lat lon : ℝ, haversine_distance lat lon lat lon = 0) := by
  constructor
  · intro lat1 lon1 lat2 lon2
    have key : ∀ u v : ℝ, Real.sin ((u - v) / 2) ^ 2 = Real.sin ((v - u) / 2) ^ 2 := by
      intro u v
      rw [show (u - v) / 2 = -((v - u) / 2) by ring, Real.sin_neg]
      ring
    rw [haversine_eq, haversine_eq,
      key (lat2 * Real.pi / 180) (lat1 * Real.pi / 180),
      key (lon2 * Real.pi / 180) (lon1 * Real.pi / 180),
      mul_comm (Real.cos (lat1 * Real.pi / 180)) (Real.cos (lat2 * Real.pi / 180))]
  · exact haversine_self

/-- C3, counterexample: two distinct observations at identical
coordinates form a 2-point set, yet every pairwise distance is zero, so
the `0 > 0` update never fires and BOTH furthest-point fields come back
absent — the claim that they are absent only for fewer than 2 points
fails. -/
theorem claim_C3_counterexample :
    ([⟨10, 20, 1, ""⟩, ⟨10, 20, 2, ""⟩] : List ObsPoint).length = 2
    ∧ calculate_centroid_and_max_span [⟨10, 20, 1, ""⟩, ⟨10, 20, 2, ""⟩]
        = (some (10, 20), 0, none, none) := by
  refine ⟨rfl, ?_⟩
  rw [calc_cons]
  have h0 : pdist ((⟨10, 20, 1, ""⟩ : ObsPoint), (⟨10, 20, 2, ""⟩ : ObsPoint)) = 0 :=
    haversine_self 10 20
  have hp : pairsAfter ([⟨10, 20, 1, ""⟩, ⟨10, 20, 2, ""⟩] : List ObsPoint)
      = [((⟨10, 20, 1, ""⟩ : ObsPoint), (⟨10, 20, 2, ""⟩ : ObsPoint))] := rfl
  have hstep : spanStep (0, none, none)
      ((⟨10, 20, 1, ""⟩ : ObsPoint), (⟨10, 20, 2, ""⟩ : ObsPoint)) = (0, none, none) := by
    unfold spanStep
    rw [h0]
    rw [if_neg (lt_irrefl 0)]
  rw [hp, spanScan_cons, hstep, spanScan_nil]
  norm_num

/-- C3, amended: with at least 2 points the furthest-point fields are
absent exactly when every pair is at haversine distance zero (e.g.
duplicated coordinates) — in which case max_distance is reported as 0 —
and when they are present they are the first pair attaining the maximum
pairwise distance. -/
theorem claim_C3 (coords : List ObsPoint) (h : 2 ≤ coords.length) :
    ((calculate_centroid_and_max_span coords).2.2.1 = none ↔
        ∀ pr ∈ pairsAfter coords, pdist pr = 0)
    ∧ ((calculate_centroid_and_max_span coords).2.2.1 = none →
        (calculate_centroid_and_max_span coords).2.1 = 0
          ∧ (calculate_centroid_and_max_span coords).2.2.2 = none)
    ∧ (∀ pt1 : ℝ × ℝ × ℕ, (calculate_centroid_and_max_span coords).2.2.1 = some pt1 →
        ∃ pr ∈ pairsAfter coords, pt1 = pointProj pr.1
          ∧ (calculate_centroid_and_max_span coords).2.2.2 = some (pointProj pr.2)
          ∧ pdist pr = (calculate_centroid_and_max_span coords).2.1
          ∧ ∀ q ∈ pairsAfter coords, pdist q ≤ pdist pr) := by
  obtain ⟨c, rest, rfl⟩ : ∃ c rest, coords = c :: rest := by
    cases coords with
    | nil => simp at h
    | cons c rest => exact ⟨c, rest, rfl⟩
  have h2 : (calculate_centroid_and_max_span (c :: rest)).2
      = spanScan (pairsAfter (c :: rest)) (0, none, none) := by rw [calc_cons]
  rcases spanScan_cases (pairsAfter (c :: rest)) 0 (none, none) with
    ⟨hall, heq⟩ | ⟨l1, pq, l2, hsplit, heq, hm, hl1, hl2⟩
  · have hr : (calculate_centroid_and_max_span (c :: rest)).2 = (0, none, none) := by
      rw [h2, heq]
    refine ⟨?_, ?_, ?_⟩
    · rw [hr]
      exact iff_of_true rfl (fun pr hpr => le_antisymm (hall pr hpr) (pdist_nonneg pr))
    · rw [hr]
      exact fun _ => ⟨rfl, rfl⟩
    · rw [hr]
      intro pt1 hpt
      simp at hpt
  · have hr : (calculate_centroid_and_max_span (c :: rest)).2
        = (pdist pq, some (pointProj pq.1), some (pointProj pq.2)) := by
      rw [h2, heq]
    have hmem : pq ∈ pairsAfter (c :: rest) := by
      rw [hsplit]
      exact List.mem_append_right _ (List.mem_cons_self _ _)
    have hmax : ∀ q ∈ pairsAfter (c :: rest), pdist q ≤ pdist pq := by
      rw [hsplit]
      exact split_max l1 l2 pq hl1 hl2
    refine ⟨?_, ?_, ?_⟩
    · rw [hr]
      refine iff_of_false (by simp) ?_
      intro hz
      exact absurd (hz pq hmem) (ne_of_gt hm)
    · rw [hr]
      intro hn
      exact absurd hn (by simp)
    · rw [hr]
      intro pt1 hpt
      have hpt1 : pointProj pq.1 = pt1 := Option.some_injective _ hpt
      exact ⟨pq, hmem, hpt1.symm, rfl, rfl, hmax⟩

/-- C3, witness at two points a quarter of a great circle apart. -/
theorem claim_C3_witness :
    2 ≤ ([⟨0, 0, 1, ""⟩, ⟨90, 0, 2, ""⟩] : List ObsPoint).length
    ∧ (((calculate_centroid_and_max_span [⟨0, 0, 1, ""⟩, ⟨90, 0, 2, ""⟩]).2.2.1 = none ↔
          ∀ pr ∈ pairsAfter ([⟨0, 0, 1, ""⟩, ⟨90, 0, 2, ""⟩] : List ObsPoint), pdist pr = 0)
      ∧ ((calculate_centroid_and_max_span [⟨0, 0, 1, ""⟩, ⟨90, 0, 2, ""⟩]).2.2.1 = none →
          (calculate_centroid_and_max_span [⟨0, 0, 1, ""⟩, ⟨90, 0, 2, ""⟩]).2.1 = 0
            ∧ (calculate_centroid_and_max_span [⟨0, 0, 1, ""⟩, ⟨90, 0, 2, ""⟩]).2.2.2 = none)
      ∧ (∀ pt1 : ℝ × ℝ × ℕ,
          (calculate_centroid_and_max_span [⟨0, 0, 1, ""⟩, ⟨90, 0, 2, ""⟩]).2.2.1 = some pt1 →
          ∃ pr ∈ pairsAfter ([⟨0, 0, 1, ""⟩, ⟨90, 0, 2, ""⟩] : List ObsPoint),
            pt1 = pointProj pr.1
            ∧ (calculate_centroid_and_max_span
                [⟨0, 0, 1, ""⟩, ⟨90, 0, 2, ""⟩]).2.2.2 = some (pointProj pr.2)
            ∧ pdist pr = (calculate_centroid_and_max_span [⟨0, 0, 1, ""⟩, ⟨90, 0, 2, ""⟩]).2.1
            ∧ ∀ q ∈ pairsAfter ([⟨0, 0, 1, ""⟩, ⟨90, 0, 2, ""⟩] : List ObsPoint),
                pdist q ≤ pdist pr)) :=
  ⟨by simp, claim_C3 [⟨0, 0, 1, ""⟩, ⟨90, 0, 2, ""⟩] (by simp)⟩

/-- C5: on every nonempty point set the summarizer's centroid is the
arithmetic mean of the latitudes and of the longitudes; the pair list
enumerates each unordered pair of distinct positions exactly once
(`n choose 2` pairs); max_distance bounds every pairwise haversine
distance and is attained by some pair whenever any pair exists; and
when it is positive the reported boundary points are the FIRST pair in
iteration order attaining it (ties resolve to the earliest pair). -/
theorem claim_C5 (coords : List ObsPoint) (h : coords ≠ []) :
    (calculate_centroid_and_max_span coords).1
        = some ((coords.map ObsPoint.lat).sum / (coords.length : ℝ),
                (coords.map ObsPoint.lon).sum / (coords.length : ℝ))
    ∧ (pairsAfter coords).length = Nat.choose coords.length 2
    ∧ (∀ pr ∈ pairsAfter coords, pdist pr ≤ (calculate_centroid_and_max_span coords).2.1)
    ∧ (pairsAfter coords ≠ [] →
        ∃ pr ∈ pairsAfter coords, pdist pr = (calculate_centroid_and_max_span coords).2.1)
    ∧ (0 < (calculate_centroid_and_max_span coords).2.1 →
        ∃ l1 pq l2, pairsAfter coords = l1 ++ pq :: l2
          ∧ pdist pq = (calculate_centroid_and_max_span coords).2.1
          ∧ (∀ q ∈ l1, pdist q < pdist pq)
          ∧ (calculate_centroid_and_max_span coords).2.2.1 = some (pointProj pq.1)
          ∧ (calculate_centroid_and_max_span coords).2.2.2 = some (pointProj pq.2)) := by
  obtain ⟨c, rest, rfl⟩ : ∃ c rest, coords = c :: rest := by
    cases coords with
    | nil => exact absurd rfl h
    | cons c rest => exact ⟨c, rest, rfl⟩
  have hcent : (calculate_centroid_and_max_span (c :: rest)).1
      = some (((c :: rest).map ObsPoint.lat).sum / (((c :: rest).length : ℕ) : ℝ),
              ((c :: rest).map ObsPoint.lon).sum / (((c :: rest).length : ℕ) : ℝ)) := by
    rw [calc_cons]
    simp
  have h2 : (calculate_centroid_and_max_span (c :: rest)).2
      = spanScan (pairsAfter (c :: rest)) (0, none, none) := by rw [calc_cons]
  rcases spanScan_cases (pairsAfter (c :: rest)) 0 (none, none) with
    ⟨hall, heq⟩ | ⟨l1, pq, l2, hsplit, heq, hm, hl1, hl2⟩
  · have hr : (calculate_centroid_and_max_span (c :: rest)).2 = (0, none, none) := by
      rw [h2, heq]
    refine ⟨hcent, pairsAfter_length _, ?_, ?_, ?_⟩
    · intro pr hpr
      rw [hr]
      exact hall pr hpr
    · intro hne
      obtain ⟨p0, hp0⟩ : ∃ p0, p0 ∈ pairsAfter (c :: rest) := by
        cases hp : pairsAfter (c :: rest) with
        | nil => exact absurd hp hne
        | cons p t => exact ⟨p, List.mem_cons_self _ _⟩
      refine ⟨p0, hp0, ?_⟩
      rw [hr]
      exact le_antisymm (hall p0 hp0) (pdist_nonneg p0)
    · intro hpos
      rw [hr] at hpos
      exact absurd hpos (lt_irrefl 0)
  · have hr : (calculate_centroid_and_max_span (c :: rest)).2
        = (pdist pq, some (pointProj pq.1), some (pointProj pq.2)) := by
      rw [h2, heq]
    refine ⟨hcent, pairsAfter_length _, ?_, ?_, ?_⟩
    · intro pr hpr
      rw [hr]
      rw [hsplit] at hpr
      exact split_max l1 l2 pq hl1 hl2 pr hpr
    · intro _
      refine ⟨pq, ?_, ?_⟩
      · rw [hsplit]
        exact List.mem_append_right _ (List.mem_cons_self _ _)
      · rw [hr]
    · intro _
      exact ⟨l1, pq, l2, hsplit, by rw [hr], hl1, by rw [hr], by rw [hr]⟩

/-- C5, witness at a single point (conjuncts about pairs hold
vacuously, the centroid is the point itself). -/
theorem claim_C5_witness :
    ([(⟨0, 0, 7, ""⟩ : ObsPoint)] ≠ [])
    ∧ ((calculate_centroid_and_max_span [(⟨0, 0, 7, ""⟩ : ObsPoint)]).1
          = some (([(⟨0, 0, 7, ""⟩ : ObsPoint)].map ObsPoint.lat).sum
                    / (([(⟨0, 0, 7, ""⟩ : ObsPoint)].length : ℕ) : ℝ),
                  ([(⟨0, 0, 7, ""⟩ : ObsPoint)].map ObsPoint.lon).sum
                    / (([(⟨0, 0, 7, ""⟩ : ObsPoint)].length : ℕ) : ℝ))
      ∧ (pairsAfter [(⟨0, 0, 7, ""⟩ : ObsPoint)]).length
          = Nat.choose ([(⟨0, 0, 7, ""⟩ : ObsPoint)].length) 2
      ∧ (∀ pr ∈ pairsAfter [(⟨0, 0, 7, ""⟩ : ObsPoint)],
          pdist pr ≤ (calculate_centroid_and_max_span [(⟨0, 0, 7, ""⟩ : ObsPoint)]).2.1)
      ∧ (pairsAfter [(⟨0, 0, 7, ""⟩ : ObsPoint)] ≠ [] →
          ∃ pr ∈ pairsAfter [(⟨0, 0, 7, ""⟩ : ObsPoint)],
            pdist pr = (calculate_centroid_and_max_span [(⟨0, 0, 7, ""⟩ : ObsPoint)]).2.1)
      ∧ (0 < (calculate_centroid_and_max_span [(⟨0, 0, 7, ""⟩ : ObsPoint)]).2.1 →
          ∃ l1 pq l2, pairsAfter [(⟨0, 0, 7, ""⟩ : ObsPoint)] = l1 ++ pq :: l2
            ∧ pdist pq = (calculate_centroid_and_max_span [(⟨0, 0, 7, ""⟩ : ObsPoint)]).2.1
            ∧ (∀ q ∈ l1, pdist q < pdist pq)
            ∧ (calculate_centroid_and_max_span [(⟨0, 0, 7, ""⟩ : ObsPoint)]).2.2.1
                = some (pointProj pq.1)
            ∧ (calculate_centroid_and_max_span [(⟨0, 0, 7, ""⟩ : ObsPoint)]).2.2.2
                = some (pointProj pq.2))) :=
  ⟨List.cons_ne_nil _ _, claim_C5 [⟨0, 0, 7, ""⟩] (List.cons_ne_nil _ _)⟩

end INat
